import Mathlib

/-!
Verification development for `bot.py`, an ElevenLabs text-to-speech Telegram
bot. The Python source is shallowly embedded: strings are `List Char`, byte
payloads are `List Nat`, the per-user `context.user_data` mapping is the
`UserData` structure, outbound side effects (replies, chat actions, message
edits, the directory fetch) are recorded as values of the `TgAction` type,
and every provider-facing network interaction is abstracted by a response
datatype that enumerates the outcomes the Python code distinguishes
(HTTP status + body, transport error, unexpected error).
-/

/-- The Python exception kinds that can be raised inside the two `try` blocks
of `fetch_elevenlabs_voices` (bot.py lines 36-62) and
`generate_tts_elevenlabs` (lines 81-95). The class hierarchy that the
`except` clauses test is reflected by the predicates below:
`HTTPError < RequestException < Exception`, and every other exception kind
raised by this code (`ValueError` from `response.json()`, `KeyError` /
`TypeError` / `AttributeError` from the JSON extraction, or anything else)
is a subclass of `Exception`. -/
inductive PyExc where
  | httpError (status : Nat)
  | requestException
  | valueError
  | typeError
  | keyError
  | attributeError
  | otherException
deriving DecidableEq

/-- `isinstance(e, requests.exceptions.HTTPError)`. -/
def PyExc.isHTTPError : PyExc → Bool
  | PyExc.httpError _ => true
  | _ => false

/-- `isinstance(e, requests.exceptions.RequestException)`; `HTTPError` is a
subclass of `RequestException`. -/
def PyExc.isRequestException : PyExc → Bool
  | PyExc.httpError _ => true
  | PyExc.requestException => true
  | _ => false

/-- `isinstance(e, Exception)`: every exception this code can raise derives
from `Exception`. -/
def PyExc.isException : PyExc → Bool
  | _ => true

/-- The `except`-clause cascade shared verbatim by both API wrappers
(bot.py lines 54-62 and 85-95): `except HTTPError: return None`,
`except RequestException: return None`, `except Exception: return None`.
An exception matching none of the clauses would propagate (`Except.error`). -/
def exceptClauses {α : Type} (tryResult : Except PyExc α) : Except PyExc (Option α) :=
  match tryResult with
  | Except.ok v => Except.ok (some v)
  | Except.error e =>
    if e.isHTTPError then Except.ok none
    else if e.isRequestException then Except.ok none
    else if e.isException then Except.ok none
    else Except.error e

/-- A decoded JSON value, as produced by `response.json()`. Only the shapes
that the extraction code inspects are distinguished: objects, arrays, and
non-container leaves (strings; other leaves behave identically for every
operation modelled here, namely subscripting and `.get`, which fail on
anything that is not an object). -/
inductive JsonVal where
  | str (s : List Char)
  | arr (elems : List JsonVal)
  | obj (fields : List (List Char × JsonVal))

/-- Python subscripting `j[key]` on a decoded JSON value: a `KeyError` when
the key is absent from an object, a `TypeError` when `j` is not an object. -/
def pyGetItem (j : JsonVal) (key : List Char) : Except PyExc JsonVal :=
  match j with
  | JsonVal.obj fields =>
    match fields.lookup key with
    | some v => Except.ok v
    | none => Except.error PyExc.keyError
  | _ => Except.error PyExc.typeError

/-- Python `j.get(key, default)`: objects return the field or the default;
any non-object has no `.get` attribute, raising `AttributeError`. -/
def pyDictGet (j : JsonVal) (key : List Char) (dflt : JsonVal) : Except PyExc JsonVal :=
  match j with
  | JsonVal.obj fields => Except.ok ((fields.lookup key).getD dflt)
  | _ => Except.error PyExc.attributeError

/-- One step of the list comprehension at bot.py lines 48-51: build
`{"name": voice["name"], "voice_id": voice["voice_id"]}` from one element of
the `voices` array, as the raw pair of JSON values. -/
def extractVoice (voice : JsonVal) : Except PyExc (JsonVal × JsonVal) := do
  let name ← pyGetItem voice ("name".toList)
  let vid ← pyGetItem voice ("voice_id".toList)
  pure (name, vid)

/-- The whole comprehension at bot.py lines 48-51, iterating
`voices_data.get("voices", [])`. Iterating a non-array raises (modelled as
`TypeError`; for a string or an object Python would raise the `TypeError`
one step later, when subscripting the yielded element — either way an
exception inside the `try` block). -/
def extractVoices (voicesField : JsonVal) : Except PyExc (List (JsonVal × JsonVal)) :=
  match voicesField with
  | JsonVal.arr elems => elems.mapM extractVoice
  | _ => Except.error PyExc.typeError

/-- Outcome of `requests.get(voices_url, ...)` at bot.py line 37: an HTTP
response carrying a status code and a body (`none` when the body is not
valid JSON, so that `response.json()` raises `ValueError`), or a raised
transport error (`requests.exceptions.RequestException`), or any other
unexpected exception. -/
inductive VoicesResponse where
  | http (status : Nat) (body : Option JsonVal)
  | transportError
  | unexpectedError

/-- Outcome of `requests.post(tts_url, ...)` at bot.py line 82: an HTTP
response with a status code and raw byte content, or a raised transport
error, or any other unexpected exception. -/
inductive TTSResponse where
  | http (status : Nat) (body : List Nat)
  | transportError
  | unexpectedError

/-- `fetch_elevenlabs_voices` (bot.py lines 32-62). The `try` body performs
the request, `raise_for_status()` (an `HTTPError` for any status ≥ 400),
`response.json()`, and the comprehension; the shared `except` cascade turns
every raised exception into a returned `None`. -/
def fetch_elevenlabs_voices (api_key : List Char) (resp : VoicesResponse) :
    Except PyExc (Option (List (JsonVal × JsonVal))) :=
  exceptClauses
    (match resp with
     | VoicesResponse.http status body =>
       if 400 ≤ status then Except.error (PyExc.httpError status)
       else
         match body with
         | none => Except.error PyExc.valueError
         | some voices_data =>
           (pyDictGet voices_data ("voices".toList) (JsonVal.arr [])).bind extractVoices
     | VoicesResponse.transportError => Except.error PyExc.requestException
     | VoicesResponse.unexpectedError => Except.error PyExc.otherException)

/-- `generate_tts_elevenlabs` (bot.py lines 64-95). The `try` body performs
the POST and `raise_for_status()` and returns `response.content`; the shared
`except` cascade turns every raised exception into a returned `None`. -/
def generate_tts_elevenlabs (text voice_id api_key : List Char) (resp : TTSResponse) :
    Except PyExc (Option (List Nat)) :=
  exceptClauses
    (match resp with
     | TTSResponse.http status body =>
       if 400 ≤ status then Except.error (PyExc.httpError status) else Except.ok body
     | TTSResponse.transportError => Except.error PyExc.requestException
     | TTSResponse.unexpectedError => Except.error PyExc.otherException)

/-- Python `s.split(sep, maxsplit)` for a single-character separator `d`
over `List Char`: at most `maxsplit` splits are made, the remainder (third
argument of the bounded split in the source) is kept whole, and the empty
string splits to `[""]`. -/
def pySplit (d : Char) (maxsplit : Nat) (s : List Char) : List (List Char) :=
  match s, maxsplit with
  | [], _ => [[]]
  | c :: rest, 0 => [c :: rest]
  | c :: rest, m + 1 =>
    if c = d then [] :: pySplit d m rest
    else
      match pySplit d (m + 1) rest with
      | [] => [[c]]
      | s1 :: ss => (c :: s1) :: ss

/-- Python `s.replace(old, new)` for single-character `old` and `new`:
every occurrence of `old` is replaced. -/
def pyReplaceChar (old new : Char) (s : List Char) : List Char :=
  s.map fun c => if c = old then new else c

/-- The default voice identifier: `os.getenv("DEFAULT_ELEVENLABS_VOICE_ID",
"21m00Tcm4TlvDq8ikWAM")` at bot.py line 21, modelled by its hardcoded
fallback (the configured default). -/
def DEFAULT_ELEVENLABS_VOICE_ID : List Char := "21m00Tcm4TlvDq8ikWAM".toList

/-- The two keys of `context.user_data` that the bot reads and writes:
`"voice_id"` and `"voice_name"`. A key that has never been written is
`none`, matching a missing dictionary entry. -/
structure UserData where
  voice_id : Option (List Char)
  voice_name : Option (List Char)
deriving DecidableEq

/-- A fresh `context.user_data`: no selection has ever been stored. -/
def emptyUserData : UserData := { voice_id := none, voice_name := none }

/-- The read side of the voice-selection state:
`context.user_data.get("voice_id", DEFAULT_ELEVENLABS_VOICE_ID)` and
`context.user_data.get("voice_name", "Default")`, exactly as performed at
bot.py lines 204-205 (and identically at lines 114-115). -/
def getVoicePref (ud : UserData) : List Char × List Char :=
  (ud.voice_id.getD DEFAULT_ELEVENLABS_VOICE_ID, ud.voice_name.getD ("Default".toList))

/-- An inline keyboard button (bot.py line 152): a visible label and the
opaque callback payload. -/
structure TgButton where
  text : List Char
  callback_data : List Char
deriving DecidableEq

/-- The outbound effects a handler can perform, in the order it performs
them. `fetchVoicesCall` records the network call to the voice directory
(bot.py line 135); the reviewer-visible point of recording it is that a
handler run whose action list does not contain it made no directory call. -/
inductive TgAction where
  | replyText (msg : List Char)
  | replyVoice (audio : List Nat) (caption : List Char)
  | replyMarkup (keyboard : List (List TgButton)) (msg : List Char)
  | chatAction
  | editMessageText (msg : List Char)
  | answerCallback
  | fetchVoicesCall
deriving DecidableEq

/-- Whether an action is a voice/audio reply (`update.message.reply_voice`). -/
def TgAction.isVoiceReply : TgAction → Bool
  | TgAction.replyVoice _ _ => true
  | _ => false

/-- Whether an action is a plain text reply (`update.message.reply_text`). -/
def TgAction.isTextReply : TgAction → Bool
  | TgAction.replyText _ => true
  | _ => false

/-- bot.py line 131. -/
def apiKeyNotSetMsg : List Char :=
  "Sorry, the ElevenLabs API key is not configured by the admin.".toList

/-- bot.py lines 138-140. -/
def couldNotFetchMsg : List Char :=
  "Could not fetch voices from ElevenLabs at the moment. Please try again later or contact the admin.".toList

/-- bot.py line 161. -/
def noVoicesToDisplayMsg : List Char :=
  "No voices available to display.".toList

/-- bot.py line 165. -/
def chooseVoiceMsg : List Char :=
  "Choose your desired voice:".toList

/-- bot.py line 177. -/
def invalidSelectionMsg : List Char :=
  "Error processing selection. Invalid data.".toList

/-- bot.py line 186. -/
def voiceSetMsg (voice_name : List Char) : List Char :=
  "✨ Voice set to: **".toList ++ voice_name ++ "** ✨\nSend me some text to try it out!".toList

/-- bot.py line 208. -/
def adminAlertMsg : List Char :=
  "Admin alert: ElevenLabs API key is not set. Cannot process TTS.".toList

/-- bot.py line 217: the caption of the voice reply. -/
def voiceCaption (selected_voice_name : List Char) : List Char :=
  "🎙️ Voice: ".toList ++ selected_voice_name

/-- bot.py line 221. -/
def sendAudioErrorMsg : List Char :=
  "Sorry, I encountered an error while sending the audio.".toList

/-- bot.py lines 224-231. -/
def ttsFailureMsg : List Char :=
  ("Sorry, I couldn\x27t convert your text to speech. 😔\n" ++
   "This might be due to:\n" ++
   "- An issue with the ElevenLabs API.\n" ++
   "- Invalid or exhausted API key quota.\n" ++
   "- The selected voice might be unavailable.\n\n" ++
   "Please try again later or select a different voice using /voices.").toList

/-- A directory entry as consumed by `voices_command`: per the provider
schema (a `voices` array of objects with string `name` and `voice_id`
fields), both fields are strings. -/
structure Voice where
  name : List Char
  voice_id : List Char
deriving DecidableEq

/-- bot.py line 152: one inline button per offered voice, labelled with the
voice name, carrying `f"voice_{voice['voice_id']}_{voice['name']}"`. -/
def mkButton (voice : Voice) : TgButton :=
  { text := voice.name,
    callback_data := "voice_".toList ++ voice.voice_id ++ '_' :: voice.name }

/-- One iteration of the loop at bot.py lines 151-156: append the button to
the current row; once the row holds 2 buttons, flush it to the keyboard. -/
def kbStep (st : List (List TgButton) × List TgButton) (button : TgButton) :
    List (List TgButton) × List TgButton :=
  let row := st.2 ++ [button]
  if row.length = 2 then (st.1 ++ [row], []) else (st.1, row)

/-- bot.py lines 157-158: after the loop, append the remaining partial row,
if any. -/
def kbFinish (st : List (List TgButton) × List TgButton) : List (List TgButton) :=
  if st.2.isEmpty then st.1 else st.1 ++ [st.2]

/-- The keyboard built by `voices_command` (bot.py lines 147-158): the loop
runs over `voices[:20]` starting from an empty keyboard and an empty row. -/
def buildKeyboard (voices : List Voice) : List (List TgButton) :=
  kbFinish ((voices.take 20).foldl (fun st voice => kbStep st (mkButton voice)) ([], []))

/-- `voices_command` (bot.py lines 128-165) as a function of whether
`ELEVENLABS_API_KEY` is configured and of the value the directory fetch
would return (`none` when `fetch_elevenlabs_voices` fails). The Python
`if not voices:` guard is true both for `None` and for an empty list, so
both take the could-not-fetch branch; the later duplicate `if not voices:`
check at lines 143-145 is unreachable and has no separate branch here. -/
def voices_command (apiKeyConfigured : Bool) (fetched : Option (List Voice)) :
    List TgAction :=
  if !apiKeyConfigured then [TgAction.replyText apiKeyNotSetMsg]
  else
    TgAction.chatAction :: TgAction.fetchVoicesCall ::
      (match fetched with
       | none => [TgAction.replyText couldNotFetchMsg]
       | some voices =>
         if voices.isEmpty then [TgAction.replyText couldNotFetchMsg]
         else
           let keyboard := buildKeyboard voices
           if keyboard.isEmpty then [TgAction.replyText noVoicesToDisplayMsg]
           else [TgAction.replyMarkup keyboard chooseVoiceMsg])

/-- `voice_selection_callback` (bot.py lines 167-190): acknowledge the
callback, split the payload with `query.data.split("_", 2)`, reject when
`len(parts) < 3 or parts[0] != "voice"` without touching the state,
otherwise store `parts[1]` and `parts[2].replace("_", " ")` into
`context.user_data` and confirm by editing the picker message. Nothing in
the `try` body can raise in this model, so the outer `except Exception`
branch (lines 188-190) is not reachable. -/
def voice_selection_callback (payload : List Char) (ud : UserData) :
    UserData × List TgAction :=
  let parts := pySplit '_' 2 payload
  if parts.length < 3 ∨ parts.getD 0 [] ≠ "voice".toList then
    (ud, [TgAction.answerCallback, TgAction.editMessageText invalidSelectionMsg])
  else
    let voice_id := parts.getD 1 []
    let voice_name := pyReplaceChar '_' ' ' (parts.getD 2 [])
    ({ voice_id := some voice_id, voice_name := some voice_name },
     [TgAction.answerCallback, TgAction.editMessageText (voiceSetMsg voice_name)])

/-- `handle_text_message` (bot.py lines 193-231) as a function of the
incoming text, the caller's `user_data`, whether `ELEVENLABS_API_KEY` is
configured, the value the (stubbed) TTS client returns for this text
(`audio_content`), and whether Telegram accepts the voice reply (`sendOk`;
when `reply_voice` raises, the `except` at lines 219-221 sends a text
apology instead). Python's `if audio_content:` is falsy both for `None`
and for an empty byte string, so both take the failure-message branch.
The handler never writes `user_data`, so the state component is returned
unchanged on every path. -/
def handle_text_message (text : List Char) (ud : UserData) (apiKeyConfigured : Bool)
    (audio_content : Option (List Nat)) (sendOk : Bool) : UserData × List TgAction :=
  if text = [] then (ud, [])
  else
    let selected_voice_name := (getVoicePref ud).2
    if !apiKeyConfigured then
      (ud, [TgAction.chatAction, TgAction.replyText adminAlertMsg])
    else
      match audio_content with
      | some audio =>
        if audio = [] then (ud, [TgAction.chatAction, TgAction.replyText ttsFailureMsg])
        else if sendOk then
          (ud, [TgAction.chatAction,
                TgAction.replyVoice audio (voiceCaption selected_voice_name)])
        else (ud, [TgAction.chatAction, TgAction.replyText sendAudioErrorMsg])
      | none => (ud, [TgAction.chatAction, TgAction.replyText ttsFailureMsg])

/-- The voice-selection state at process start: every owner has a fresh
`user_data`. -/
def initialStore : Nat → UserData := fun _ => emptyUserData

/-- The voice-selection stores reachable during one process lifetime: every
owner starts with a fresh `user_data`, and each selection event runs
`voice_selection_callback` on one owner's state. The other handlers never
write the state, so they contribute no transitions. -/
inductive ReachableStore : (Nat → UserData) → Prop where
  | init : ReachableStore initialStore
  | select (owner : Nat) (payload : List Char) (store : Nat → UserData) :
      ReachableStore store →
      ReachableStore
        (fun o => if o = owner then (voice_selection_callback payload (store owner)).1
                  else store o)

/-- Proof-side reformulation of the row-building loop: chunk a list into
consecutive pairs, a final singleton when the length is odd. -/
def chunkPairs {α : Type} : List α → List (List α)
  | a :: b :: rest => [a, b] :: chunkPairs rest
  | [a] => [[a]]
  | [] => []

/-- A stub directory of 25 voices, used to witness the picker layout. -/
def stubVoices25 : List Voice :=
  (List.range 25).map fun n =>
    { name := [Char.ofNat (65 + n)], voice_id := [Char.ofNat (97 + n)] }

/-! ### Helper lemmas -/

lemma pySplit_nil (d : Char) (m : Nat) : pySplit d m [] = [[]] := by
  cases m <;> rfl

lemma pySplit_zero (d : Char) (s : List Char) : pySplit d 0 s = [s] := by
  cases s <;> rfl

lemma pySplit_succ_cons (d : Char) (m : Nat) (c : Char) (rest : List Char) :
    pySplit d (m + 1) (c :: rest) =
      if c = d then [] :: pySplit d m rest
      else
        match pySplit d (m + 1) rest with
        | [] => [[c]]
        | s1 :: ss => (c :: s1) :: ss := rfl

/-- Splitting a string that starts with a delimiter-free chunk followed by a
delimiter consumes the chunk as the first segment and one unit of the split
budget. -/
lemma pySplit_append_delim (d : Char) (m : Nat) (xs rest : List Char) (h : d ∉ xs) :
    pySplit d (m + 1) (xs ++ d :: rest) = xs :: pySplit d m rest := by
  induction xs with
  | nil => simp [pySplit]
  | cons c xs ih =>
    have hcd : ¬ c = d := by
      intro hc
      subst hc
      exact h (List.mem_cons_self c xs)
    have hxs : d ∉ xs := fun hd => h (List.mem_cons_of_mem c hd)
    rw [List.cons_append, pySplit_succ_cons, if_neg hcd, ih hxs]

/-- The payload `voice_<id>_<name>` splits, under `split("_", 2)`, into
exactly the marker, the id, and the verbatim name, provided the id itself
contains no delimiter. -/
lemma pySplit_voice_payload (id name : List Char) (hid : '_' ∉ id) :
    pySplit '_' 2 ("voice_".toList ++ id ++ '_' :: name)
      = ["voice".toList, id, name] := by
  have h1 : "voice_".toList ++ id ++ '_' :: name
      = "voice".toList ++ '_' :: (id ++ '_' :: name) := by
    simp
  rw [h1]
  rw [show (2 : Nat) = 1 + 1 from rfl,
    pySplit_append_delim '_' 1 ("voice".toList) (id ++ '_' :: name) (by decide)]
  rw [show (1 : Nat) = 0 + 1 from rfl, pySplit_append_delim '_' 0 id name hid]
  rw [pySplit_zero]

/-- Replacing every underscore by a space leaves no underscore behind. -/
lemma not_mem_pyReplaceChar (s : List Char) : '_' ∉ pyReplaceChar '_' ' ' s := by
  intro hmem
  rw [pyReplaceChar, List.mem_map] at hmem
  obtain ⟨c, _, hc⟩ := hmem
  by_cases h : c = '_'
  · rw [if_pos h] at hc
    exact absurd hc (by decide)
  · rw [if_neg h] at hc
    exact h hc

/-- Every branch of the `except` cascade returns instead of re-raising:
`Exception` is at the top of the hierarchy of everything these `try` bodies
can raise, so `exceptClauses` always yields `Except.ok`. -/
lemma exceptClauses_ok {α : Type} (t : Except PyExc α) :
    ∃ r, exceptClauses t = Except.ok r := by
  cases t with
  | ok v => exact ⟨some v, rfl⟩
  | error e => cases e <;> exact ⟨none, rfl⟩

/-- Case analysis matching the recursion pattern of `chunkPairs`. -/
lemma twoStepInduction {α : Type} {motive : List α → Prop}
    (h0 : motive []) (h1 : ∀ a, motive [a])
    (h2 : ∀ a b l, motive l → motive (a :: b :: l)) : ∀ l, motive l := by
  have key : ∀ (n : Nat) (l : List α), l.length ≤ n → motive l := by
    intro n
    induction n with
    | zero =>
      intro l hl
      cases l with
      | nil => exact h0
      | cons a t => simp at hl
    | succ n ih =>
      intro l hl
      cases l with
      | nil => exact h0
      | cons a t =>
        cases t with
        | nil => exact h1 a
        | cons b t2 =>
          apply h2
          apply ih
          simp at hl
          omega
  intro l
  exact key l.length l le_rfl

lemma chunkPairs_flatten {α : Type} (l : List α) : (chunkPairs l).flatten = l := by
  induction l using twoStepInduction with
  | h0 => rfl
  | h1 a => rfl
  | h2 a b t ih => simp [chunkPairs, ih]

lemma chunkPairs_length {α : Type} (l : List α) :
    (chunkPairs l).length = (l.length + 1) / 2 := by
  induction l using twoStepInduction with
  | h0 => simp [chunkPairs]
  | h1 a => simp [chunkPairs]
  | h2 a b t ih =>
    simp only [chunkPairs, List.length_cons, ih]
    omega

lemma chunkPairs_eq_nil_iff {α : Type} (l : List α) : chunkPairs l = [] ↔ l = [] := by
  cases l with
  | nil => simp [chunkPairs]
  | cons a t =>
    cases t with
    | nil => simp [chunkPairs]
    | cons b t2 => simp [chunkPairs]

lemma chunkPairs_dropLast {α : Type} (l : List α) :
    ∀ r ∈ (chunkPairs l).dropLast, r.length = 2 := by
  induction l using twoStepInduction with
  | h0 => simp [chunkPairs]
  | h1 a => simp [chunkPairs]
  | h2 a b t ih =>
    intro r hr
    rw [chunkPairs] at hr
    by_cases ht : t = []
    · subst ht
      simp [chunkPairs] at hr
    · have hne : chunkPairs t ≠ [] := fun hc => ht ((chunkPairs_eq_nil_iff t).mp hc)
      rw [List.dropLast_cons_of_ne_nil hne] at hr
      rcases List.mem_cons.mp hr with h | h
      · subst h; rfl
      · exact ih r h

lemma chunkPairs_getLast {α : Type} (l : List α) :
    (chunkPairs l).getLast?.map List.length =
      if l.length = 0 then none
      else if l.length % 2 = 1 then some 1 else some 2 := by
  induction l using twoStepInduction with
  | h0 => rfl
  | h1 a => rfl
  | h2 a b t ih =>
    by_cases ht : t = []
    · subst ht
      simp [chunkPairs]
    · have hne : chunkPairs t ≠ [] := fun hc => ht ((chunkPairs_eq_nil_iff t).mp hc)
      have hlen : t.length ≠ 0 := fun hc => ht (List.length_eq_zero.mp hc)
      obtain ⟨c, cs, hcs⟩ : ∃ c cs, chunkPairs t = c :: cs := by
        cases hcp : chunkPairs t with
        | nil => exact absurd hcp hne
        | cons c cs => exact ⟨c, cs, rfl⟩
      rw [chunkPairs, hcs, List.getLast?_cons_cons, ← hcs, ih]
      simp only [List.length_cons]
      rw [if_neg hlen, if_neg (show ¬ t.length + 1 + 1 = 0 by omega)]
      by_cases hp : t.length % 2 = 1
      · rw [if_pos hp, if_pos (by omega)]
      · rw [if_neg hp, if_neg (by omega)]

/-- Two loop iterations flush exactly one full row: the fold over the
buttons, starting from an empty current row, appends the pair-chunking of
the buttons to whatever keyboard has been accumulated. -/
lemma kbFold_eq_chunk (bs : List TgButton) : ∀ kb : List (List TgButton),
    kbFinish (bs.foldl kbStep (kb, [])) = kb ++ chunkPairs bs := by
  induction bs using twoStepInduction with
  | h0 =>
    intro kb
    simp [kbFinish, chunkPairs]
  | h1 a =>
    intro kb
    simp [kbStep, kbFinish, chunkPairs]
  | h2 a b t ih =>
    intro kb
    simp only [List.foldl_cons]
    rw [show kbStep (kb, []) a = (kb, [a]) from rfl]
    rw [show kbStep (kb, [a]) b = (kb ++ [[a, b]], []) from rfl]
    rw [ih (kb ++ [[a, b]])]
    simp [chunkPairs]

/-- The loop at bot.py lines 151-158 groups the first 20 buttons into
consecutive pairs with a final singleton when their number is odd. -/
lemma buildKeyboard_eq_chunk (voices : List Voice) :
    buildKeyboard voices = chunkPairs ((voices.take 20).map mkButton) := by
  rw [buildKeyboard, ← List.foldl_map, kbFold_eq_chunk, List.nil_append]

/-- A nonempty directory slice yields a nonempty keyboard, so the
`if not keyboard:` fallback at bot.py lines 160-162 is not taken. -/
lemma buildKeyboard_ne_nil (voices : List Voice) (h : voices ≠ []) :
    buildKeyboard voices ≠ [] := by
  rw [buildKeyboard_eq_chunk]
  intro hc
  have h2 := (chunkPairs_eq_nil_iff _).mp hc
  simp at h2
  exact h h2

/-- A selection event either leaves the owner's state untouched (malformed
payload) or stores a voice name that went through `replace("_", " ")`. -/
lemma callback_state_shape (payload : List Char) (ud : UserData) :
    (voice_selection_callback payload ud).1 = ud ∨
    ∃ s, ((voice_selection_callback payload ud).1).voice_name
        = some (pyReplaceChar '_' ' ' s) := by
  rw [voice_selection_callback]
  split
  · exact Or.inl rfl
  · exact Or.inr ⟨(pySplit '_' 2 payload).getD 2 [], rfl⟩

/-! ### Claims -/

/-- C1 (counterexample): the claim asserts that after a valid selection the
stored voice_name exactly equals the third segment of the payload even when
the name contains the underscore delimiter. It is false: for the payload
`voice_v1_Santa_Claus` the bounded split does yield the verbatim third
segment `Santa_Claus`, but the handler stores
`parts[2].replace("_", " ")` (bot.py line 181), i.e. `Santa Claus`. -/
theorem claimC1_counterexample :
    pySplit '_' 2 ("voice_v1_Santa_Claus".toList)
        = ["voice".toList, "v1".toList, "Santa_Claus".toList] ∧
    ((voice_selection_callback ("voice_v1_Santa_Claus".toList) emptyUserData).1).voice_name
        ≠ some ("Santa_Claus".toList) ∧
    ((voice_selection_callback ("voice_v1_Santa_Claus".toList) emptyUserData).1).voice_name
        = some ("Santa Claus".toList) := by
  refine ⟨by decide, by decide, by decide⟩

/-- C1 (amended): for every valid selection payload `voice_<id>_<name>`
(id free of the delimiter, so that the bounded split yields exactly the
marker, the id, and the verbatim name), after the handler applies `set` and
the state is read back with `get`, the stored voice_id equals the id
segment exactly, and the stored voice_name equals the name segment with
every underscore replaced by a space — verbatim exactly when the name
contains no underscore. -/
theorem claimC1_roundtrip_amended (id name : List Char) (ud : UserData)
    (hid : '_' ∉ id) :
    getVoicePref ((voice_selection_callback ("voice_".toList ++ id ++ '_' :: name) ud).1)
      = (id, pyReplaceChar '_' ' ' name) := by
  have hs := pySplit_voice_payload id name hid
  rw [voice_selection_callback, hs]
  rw [if_neg (by simp)]
  rfl

/-- C1 witness: the amended round-trip at the concrete payload
`voice_v1_Santa_Claus`. -/
theorem claimC1_witness :
    '_' ∉ ("v1".toList) ∧
    getVoicePref ((voice_selection_callback
          ("voice_".toList ++ "v1".toList ++ '_' :: "Santa_Claus".toList)
          emptyUserData).1)
      = ("v1".toList, pyReplaceChar '_' ' ' ("Santa_Claus".toList)) :=
  ⟨by decide, claimC1_roundtrip_amended ("v1".toList) ("Santa_Claus".toList)
      emptyUserData (by decide)⟩

/-- C2: a selection payload whose first underscore-delimited segment is not
the marker `voice`, or which splits into fewer than three segments under
`split("_", 2)`, is rejected: the handler emits the visible
invalid-selection edit and leaves the owner's stored state unchanged
(bot.py lines 174-178). -/
theorem claimC2_reject_no_mutation (payload : List Char) (ud : UserData)
    (h : (pySplit '_' 2 payload).getD 0 [] ≠ "voice".toList ∨
         (pySplit '_' 2 payload).length < 3) :
    voice_selection_callback payload ud
      = (ud, [TgAction.answerCallback, TgAction.editMessageText invalidSelectionMsg]) := by
  rw [voice_selection_callback, if_pos h.symm]

/-- C2 witness: the two-segment payload `voice_x` is rejected with no state
change. -/
theorem claimC2_witness :
    voice_selection_callback ("voice_x".toList) emptyUserData
      = (emptyUserData,
         [TgAction.answerCallback, TgAction.editMessageText invalidSelectionMsg]) :=
  claimC2_reject_no_mutation ("voice_x".toList) emptyUserData (by decide)

/-- C3: for every input and every provider outcome — 2xx success, non-2xx
HTTP error, transport/timeout error, or any unexpected exception (including
invalid JSON and malformed voice objects on the directory path) — both the
TTS client and the voice-directory listing return normally (`Except.ok`),
i.e. no exception crosses their boundary; each failure is absorbed into the
returned `none`. -/
theorem claimC3_boundary_absorbs_all (text voice_id api_key : List Char)
    (ttsResp : TTSResponse) (voicesResp : VoicesResponse) :
    (∃ result, generate_tts_elevenlabs text voice_id api_key ttsResp = Except.ok result) ∧
    (∃ result, fetch_elevenlabs_voices api_key voicesResp = Except.ok result) :=
  ⟨exceptClauses_ok _, exceptClauses_ok _⟩

/-- C4: the picker offers exactly the first 20 directory entries as
selectable items, in order, grouped two per row. Unconditionally:
the buttons of the keyboard, flattened, are the buttons of `voices[:20]`;
the row count is `(min 20 n + 1) / 2` (so 25 entries give 10 rows of 20
buttons); every row except possibly the last holds 2 buttons; the last row
holds 1 button exactly when `min 20 n` is odd (and 2 when it is even and
nonzero); and the command replies with this keyboard whenever the listing
is nonempty. -/
theorem claimC4_picker_layout (voices : List Voice) :
    (buildKeyboard voices).flatten = (voices.take 20).map mkButton ∧
    (buildKeyboard voices).length = (min 20 voices.length + 1) / 2 ∧
    (∀ row ∈ (buildKeyboard voices).dropLast, row.length = 2) ∧
    ((buildKeyboard voices).getLast?.map List.length =
      if min 20 voices.length = 0 then none
      else if min 20 voices.length % 2 = 1 then some 1 else some 2) ∧
    voices_command true (some voices) =
      TgAction.chatAction :: TgAction.fetchVoicesCall ::
        (if voices.isEmpty then [TgAction.replyText couldNotFetchMsg]
         else [TgAction.replyMarkup (buildKeyboard voices) chooseVoiceMsg]) := by
  refine ⟨?_, ?_, ?_, ?_, ?_⟩
  · rw [buildKeyboard_eq_chunk, chunkPairs_flatten]
  · rw [buildKeyboard_eq_chunk, chunkPairs_length]
    simp
  · rw [buildKeyboard_eq_chunk]
    exact chunkPairs_dropLast _
  · rw [buildKeyboard_eq_chunk, chunkPairs_getLast]
    simp
  · by_cases hv : voices.isEmpty
    · simp [voices_command, hv]
    · have hne : voices ≠ [] := by simpa [List.isEmpty_iff] using hv
      have hkb : ¬ (buildKeyboard voices).isEmpty := by
        simpa [List.isEmpty_iff] using buildKeyboard_ne_nil voices hne
      simp [voices_command, hv, hkb]

/-- C5: for every non-empty text, when the TTS client returns (non-empty)
audio bytes and the transport accepts the reply, the free-text handler
emits exactly one audio reply carrying exactly those bytes, captioned with
the resolved voice name, and emits no text reply (bot.py lines 211-218). -/
theorem claimC5_success_audio_reply (text : List Char) (ud : UserData)
    (audio : List Nat) (htext : text ≠ []) (haudio : audio ≠ []) :
    ((handle_text_message text ud true (some audio) true).2.filter TgAction.isVoiceReply
        = [TgAction.replyVoice audio (voiceCaption (ud.voice_name.getD ("Default".toList)))]) ∧
    ((handle_text_message text ud true (some audio) true).2.filter TgAction.isTextReply
        = []) := by
  rw [handle_text_message, if_neg htext]
  simp [haudio, getVoicePref, TgAction.isVoiceReply, TgAction.isTextReply]

/-- C5 witness: text `Hello`, stub audio `[1, 2, 3]`, fresh user state. -/
theorem claimC5_witness :
    ("Hello".toList ≠ ([] : List Char)) ∧ (([1, 2, 3] : List Nat) ≠ []) ∧
    ((handle_text_message ("Hello".toList) emptyUserData true (some [1, 2, 3]) true).2.filter
          TgAction.isVoiceReply
        = [TgAction.replyVoice [1, 2, 3]
            (voiceCaption (emptyUserData.voice_name.getD ("Default".toList)))]) ∧
    ((handle_text_message ("Hello".toList) emptyUserData true (some [1, 2, 3]) true).2.filter
          TgAction.isTextReply
        = []) := by
  have h := claimC5_success_audio_reply ("Hello".toList) emptyUserData [1, 2, 3]
    (by decide) (by decide)
  exact ⟨by decide, by decide, h.1, h.2⟩

/-- C6: for every non-empty text, when the TTS client returns the failure
value `None`, the free-text handler emits no audio reply and exactly one
text reply — the fixed explanation message, a constant that interpolates no
error detail (bot.py lines 222-231); the handler returns normally on this
path (it is a total function). -/
theorem claimC6_failure_text_reply (text : List Char) (ud : UserData) (sendOk : Bool)
    (htext : text ≠ []) :
    ((handle_text_message text ud true none sendOk).2.filter TgAction.isVoiceReply = []) ∧
    ((handle_text_message text ud true none sendOk).2.filter TgAction.isTextReply
        = [TgAction.replyText ttsFailureMsg]) := by
  rw [handle_text_message, if_neg htext]
  simp [TgAction.isVoiceReply, TgAction.isTextReply]

/-- C6 witness: text `Hello` with the TTS stub failing. -/
theorem claimC6_witness :
    ("Hello".toList ≠ ([] : List Char)) ∧
    ((handle_text_message ("Hello".toList) emptyUserData true none true).2.filter
        TgAction.isVoiceReply = []) ∧
    ((handle_text_message ("Hello".toList) emptyUserData true none true).2.filter
        TgAction.isTextReply = [TgAction.replyText ttsFailureMsg]) := by
  have h := claimC6_failure_text_reply ("Hello".toList) emptyUserData true (by decide)
  exact ⟨by decide, h.1, h.2⟩

/-- C7: an owner with no prior selection event resolves, via the `get`
pattern of bot.py lines 204-205 and 114-115, to the configured default
voice_id and the display name `Default`, rather than failing. -/
theorem claimC7_default_pref (owner : Nat) :
    getVoicePref (initialStore owner)
      = (DEFAULT_ELEVENLABS_VOICE_ID, "Default".toList) := rfl

/-- C8: with no TTS credential configured, the voices command immediately
replies with the not-configured message and performs no directory call
(the fetch action never appears in its effect trace; bot.py lines 130-132
return before line 135). -/
theorem claimC8_no_key_short_circuit (fetched : Option (List Voice)) :
    voices_command false fetched = [TgAction.replyText apiKeyNotSetMsg] ∧
    TgAction.fetchVoicesCall ∉ voices_command false fetched := by
  refine ⟨rfl, ?_⟩
  rw [show voices_command false fetched = [TgAction.replyText apiKeyNotSetMsg] from rfl]
  simp

/-- C9: an empty text input makes the free-text handler return before any
effect: no reply, no activity indicator, and the owner's state unchanged
(bot.py lines 195-197). -/
theorem claimC9_empty_text_silent (ud : UserData) (apiKeyConfigured : Bool)
    (audio_content : Option (List Nat)) (sendOk : Bool) :
    handle_text_message [] ud apiKeyConfigured audio_content sendOk = (ud, []) := rfl

/-- C10: in every reachable voice-selection store, every owner's resolved
voice_name is free of underscores: an accepted selection stores
`parts[2].replace("_", " ")` (bot.py line 181), a rejected one changes
nothing, and the fallback name `Default` contains no underscore. -/
theorem claimC10_no_underscore_invariant (store : Nat → UserData)
    (h : ReachableStore store) (owner : Nat) :
    '_' ∉ (store owner).voice_name.getD ("Default".toList) := by
  induction h with
  | init => exact (by decide : '_' ∉ ("Default".toList))
  | select selOwner payload st hst ih =>
    by_cases ho : owner = selOwner
    · subst ho
      rcases callback_state_shape payload (st owner) with heq | ⟨s, hs⟩
      · simpa [heq] using ih
      · have hb : ((fun o => if o = owner then (voice_selection_callback payload (st owner)).1
            else st o) owner) = (voice_selection_callback payload (st owner)).1 := by simp
        rw [hb, hs, Option.getD_some]
        exact not_mem_pyReplaceChar s
    · simpa [ho] using ih

/-- C10 witness: the store reached by one accepted selection with an
underscored name, read back at the selecting owner. -/
theorem claimC10_witness :
    '_' ∉ ((fun o => if o = 7 then
          (voice_selection_callback ("voice_v1_Santa_Claus".toList) (initialStore 7)).1
        else initialStore o) 7).voice_name.getD ("Default".toList) :=
  claimC10_no_underscore_invariant _
    (ReachableStore.select 7 ("voice_v1_Santa_Claus".toList) initialStore
      ReachableStore.init) 7

/-- C4 witness: the stub directory of 25 voices yields exactly 20 offered
items — the buttons of the first 20 entries — in 10 rows. -/
theorem claimC4_witness :
    (buildKeyboard stubVoices25).length = 10 ∧
    (buildKeyboard stubVoices25).flatten = (stubVoices25.take 20).map mkButton :=
  ⟨((claimC4_picker_layout stubVoices25).2.1).trans (by decide),
   (claimC4_picker_layout stubVoices25).1⟩

/-- C8 witness: the short-circuit at a concrete (irrelevant) fetch stub. -/
theorem claimC8_witness :
    voices_command false none = [TgAction.replyText apiKeyNotSetMsg] ∧
    TgAction.fetchVoicesCall ∉ voices_command false none :=
  claimC8_no_key_short_circuit none
